import Mathlib

/-!
Verification development for the synthetic telecom data generator
(`telecom_data_generator.py`).  The Python source is shallowly embedded:
pure helpers become Lean functions, `random.*` draws become explicit
oracle arguments, raised exceptions become `Except.error`, and Python
strings are handled as `String` / `List Char` with structurally
recursive re-implementations of the few `str` methods the source uses
(`split`, `replace`, `strip`, `lower`), so that every definition is
executable and kernel-reducible.
-/

/-- Decidable equality for `Except` results (needed to evaluate the
embedded functions on concrete inputs). -/
instance {ε α : Type} [DecidableEq ε] [DecidableEq α] : DecidableEq (Except ε α)
  | Except.error a, Except.error b => decidable_of_iff (a = b) (by simp)
  | Except.error _, Except.ok _ => isFalse (by simp)
  | Except.ok _, Except.error _ => isFalse (by simp)
  | Except.ok a, Except.ok b => decidable_of_iff (a = b) (by simp)

namespace TelecomGen

/-! ## Character/string primitives

These model the exact Python `str` operations used by the generator.
All of them recurse structurally over `List Char` so concrete proofs
can go through `rfl`/`decide`. -/

/-- Whitespace recognized by `str.strip()` (the characters that occur in
this data set). -/
def isSpaceChar (c : Char) : Bool :=
  c = ' ' || c = '\t' || c = '\n' || c = '\r'

/-- Drop leading whitespace from a character list. -/
def dropLeadingSpaces : List Char → List Char
  | [] => []
  | x :: xs => if isSpaceChar x then dropLeadingSpaces xs else x :: xs

/-- `str.strip()` on a character list: drop whitespace on both ends. -/
def trimChars (l : List Char) : List Char :=
  (dropLeadingSpaces (dropLeadingSpaces l.reverse).reverse)

/-- Python `s.strip()`. -/
def pyStrip (s : String) : String :=
  ⟨trimChars s.data⟩

/-- Characters of `s` before the first occurrence of `c`
(`s.split(c)[0]` when `c` is a single character). -/
def takeUntilChar (c : Char) : List Char → List Char
  | [] => []
  | x :: xs => if x = c then [] else x :: takeUntilChar c xs

/-- Remove every occurrence of a character (`s.replace(c, "")`). -/
def removeCharAll (c : Char) : List Char → List Char
  | [] => []
  | x :: xs => if x = c then removeCharAll c xs else x :: removeCharAll c xs

/-- `s.replace("GB", "")`: drop each (non-overlapping, left-to-right)
occurrence of the two-character pattern `GB`. -/
def removeGB : List Char → List Char
  | 'G' :: 'B' :: rest => removeGB rest
  | x :: rest => x :: removeGB rest
  | [] => []

/-- `s.replace("unlimited", "1000")` (note the lower-case pattern, as
written at line 690 of the source). -/
def replaceUnlimitedLower : List Char → List Char
  | 'u' :: 'n' :: 'l' :: 'i' :: 'm' :: 'i' :: 't' :: 'e' :: 'd' :: rest =>
      '1' :: '0' :: '0' :: '0' :: replaceUnlimitedLower rest
  | x :: rest => x :: replaceUnlimitedLower rest
  | [] => []

/-- `s.replace("Unlimited", "1000")` (capitalized pattern, as written for
the champion side at line 690 of the source). -/
def replaceUnlimitedUpper : List Char → List Char
  | 'U' :: 'n' :: 'l' :: 'i' :: 'm' :: 'i' :: 't' :: 'e' :: 'd' :: rest =>
      '1' :: '0' :: '0' :: '0' :: replaceUnlimitedUpper rest
  | x :: rest => x :: replaceUnlimitedUpper rest
  | [] => []

/-- Split a character list at every occurrence of `c` (Python
`s.split(c)`; always returns at least one group). -/
def splitChar (c : Char) : List Char → List (List Char)
  | [] => [[]]
  | x :: xs =>
    if x = c then [] :: splitChar c xs
    else
      match splitChar c xs with
      | [] => [[x]]
      | g :: gs => (x :: g) :: gs

/-- Does `pat` occur as a prefix of `l`? -/
def startsWithL : List Char → List Char → Bool
  | [], _ => true
  | _ :: _, [] => false
  | x :: xs, y :: ys => x = y && startsWithL xs ys

/-- Does `pat` occur as a contiguous sublist of `l`?  Models Python's
`pat in s` test on strings. -/
def containsSubL (pat : List Char) : List Char → Bool
  | [] => startsWithL pat []
  | x :: rest => startsWithL pat (x :: rest) || containsSubL pat rest

/-- Python `sub in s` on `String`s. -/
def strContains (s sub : String) : Bool :=
  containsSubL sub.data s.data

/-- Lower-case one ASCII character (`str.lower()`; all strings lowered
by the source are ASCII). -/
def charToLowerA (c : Char) : Char :=
  if 'A' ≤ c ∧ c ≤ 'Z' then Char.ofNat (c.toNat + 32) else c

/-- Python `s.lower()` (ASCII). -/
def pyLower (s : String) : String :=
  ⟨s.data.map charToLowerA⟩

/-- Lexicographic (code-point) comparison of character lists; models
Python `<` on `str`. -/
def charListLt : List Char → List Char → Bool
  | [], [] => false
  | [], _ :: _ => true
  | _ :: _, [] => false
  | x :: xs, y :: ys => x < y || (x = y && charListLt xs ys)

/-! ## Numeric parsing (`float(...)`) -/

/-- Value of a decimal digit, or `none` for a non-digit. -/
def digitVal (c : Char) : Option ℕ :=
  if '0' ≤ c ∧ c ≤ '9' then some (c.toNat - 48) else none

/-- Parse a non-empty all-digit character list as a natural number. -/
def parseDigitsAux (acc : ℕ) : List Char → Option ℕ
  | [] => some acc
  | c :: cs =>
    match digitVal c with
    | some d => parseDigitsAux (acc * 10 + d) cs
    | none => none

def parseDigits (l : List Char) : Option ℕ :=
  if l.isEmpty then none else parseDigitsAux 0 l

/-- Python `float(s)` on the plain decimal literals that occur in this
program's data (digits with an optional single decimal point; `"5."`
and `".5"` parse as in Python).  All other strings — in particular
`"Unlimited"` and the empty string — fail, as `float` raises
`ValueError` on them.  (Exponents, signs, `"inf"` etc. never occur in
the strings this program feeds to `float`.) -/
def parseFloat (s : String) : Option ℚ :=
  match splitChar '.' s.data with
  | [ip] => (parseDigits ip).map (fun n => (n : ℚ))
  | [ip, fp] =>
    if ip.isEmpty && fp.isEmpty then none
    else
      match (if ip.isEmpty then some 0 else parseDigits ip),
            (if fp.isEmpty then some 0 else parseDigits fp) with
      | some i, some f => some ((i : ℚ) + (f : ℚ) / (10 : ℚ) ^ fp.length)
      | _, _ => none
  | _ => none

/-- `float(s)` in an exception-aware context: a failed parse is Python's
`ValueError`. -/
def pyFloat (s : String) : Except String ℚ :=
  match parseFloat s with
  | some q => Except.ok q
  | none => Except.error "ValueError"

/-! ## Decimal formatting -/

/-- Python `f"{x:.2f}"` for the non-negative, non-tie values this
program formats (every formatted value here is an exact multiple of
0.01, so round-half-even and round-half-up coincide). -/
def fmt2 (q : ℚ) : String :=
  let c : ℤ := ⌊q * 100 + 1 / 2⌋
  let ip := c / 100
  let fp := (c % 100).toNat
  toString ip ++ "." ++ (if fp < 10 then "0" ++ toString fp else toString fp)

/-- Python `str(x)` for a float; exact for the integral values that can
reach the one (never-exercised) call site that stringifies a float
(`find_better_competitor_plan`'s hotspot reason). -/
def floatRepr (q : ℚ) : String :=
  if q.den = 1 then toString q.num ++ ".0"
  else fmt2 q

/-! ## `extract_price_numeric` (source lines 514–526) -/

/-- `extract_price_numeric(price_str)`: empty string maps to 0; the
part before a `/` is kept (stripping a `"/line"` suffix), a `$` is
removed, and a failed `float` parse degrades to 0. -/
def extractPriceNumeric (s : String) : ℚ :=
  if s = "" then 0
  else
    let beforeSlash := takeUntilChar '/' s.data
    let noDollar := removeCharAll '$' beforeSlash
    match parseFloat ⟨noDollar⟩ with
    | some q => q
    | none => 0

/-! ## Plan catalog data model -/

/-- One plan entry, with the exact fields built by `load_plans_from_csv`
and by the hard-coded default table (all values are strings in the
source). -/
structure Plan where
  planID : String
  name : String
  price : String
  customerType : String
  dataAllowance : String
  marketSegment : String
  streamingQuality : String
  businessType : String
  activationFee : String
  popularity : String
  international_data : String
  international_voice : String
  international_sms : String
  international_countries : String
  hotspot_data : String
deriving DecidableEq

/-- The operators dictionary: an insertion-ordered association list from
operator name to that operator's plan list (Python dicts preserve
insertion order). -/
abbrev Operators := List (String × List Plan)

/-- Python `operators[name]["plans"]` as a lookup. -/
def lookupOp (ops : Operators) (opName : String) : Option (List Plan) :=
  (List.find? (fun x => x.1 = opName) ops).map (fun x => x.2)

/-- `operators.setdefault(name, {"plans": []})["plans"].append(plan)`:
append a plan under an operator name, creating the entry at the end on
first use (dict insertion order). -/
def addPlanToOps (ops : Operators) (opName : String) (plan : Plan) : Operators :=
  match ops with
  | [] => [(opName, [plan])]
  | (n, ps) :: rest =>
    if n = opName then (n, ps ++ [plan]) :: rest
    else (n, ps) :: addPlanToOps rest opName plan

/-- The hard-coded fallback catalog, `get_default_operators()`
(source lines 161–384). -/
def getDefaultOperators : Operators :=
  [("Operator B (champion)",
    [{ planID := "POCH045", name := "5GB Plan", price := "40",
       customerType := "Individual", dataAllowance := "5GB",
       marketSegment := "General", streamingQuality := "HD",
       businessType := "prepaid", activationFee := "35", popularity := "",
       international_data := "0", international_voice := "0",
       international_sms := "0", international_countries := "",
       hotspot_data := "5" },
     { planID := "POCH008", name := "Infinite Plus", price := "40/line",
       customerType := "Family & CUG", dataAllowance := "Unlimited",
       marketSegment := "Nurses", streamingQuality := "HD",
       businessType := "prepaid", activationFee := "35", popularity := "",
       international_data := "5", international_voice := "120",
       international_sms := "50", international_countries := "US,Mexico,Canada",
       hotspot_data := "15" },
     { planID := "POCH011", name := "Infinite Plus", price := "70",
       customerType := "Individual", dataAllowance := "Unlimited",
       marketSegment := "Military and veterans", streamingQuality := "HD",
       businessType := "prepaid", activationFee := "35", popularity := "",
       international_data := "5", international_voice := "120",
       international_sms := "50", international_countries := "US,Mexico,Canada",
       hotspot_data := "15" },
     { planID := "POCH023", name := "Infinite Ultimate", price := "90",
       customerType := "Individual", dataAllowance := "Unlimited",
       marketSegment := "General", streamingQuality := "4K UHD",
       businessType := "prepaid", activationFee := "35", popularity := "Best Value",
       international_data := "10", international_voice := "Unlimited",
       international_sms := "Unlimited",
       international_countries := "US,Mexico,Canada,UK,Australia,France,Germany,Italy,Spain,Japan",
       hotspot_data := "30" },
     { planID := "POCH030", name := "Infinite Ultimate", price := "50/line",
       customerType := "Family & CUG", dataAllowance := "Unlimited",
       marketSegment := "Nurses", streamingQuality := "4K UHD",
       businessType := "prepaid", activationFee := "35", popularity := "Best Value",
       international_data := "10", international_voice := "Unlimited",
       international_sms := "Unlimited",
       international_countries := "US,Mexico,Canada,UK,Australia,France,Germany,Italy,Spain,Japan",
       hotspot_data := "30" },
     { planID := "POCH031", name := "Infinite Ultimate", price := "80",
       customerType := "Individual", dataAllowance := "Unlimited",
       marketSegment := "Students", streamingQuality := "4K UHD",
       businessType := "prepaid", activationFee := "35", popularity := "Best Value",
       international_data := "10", international_voice := "Unlimited",
       international_sms := "Unlimited",
       international_countries := "US,Mexico,Canada,UK,Australia,France,Germany,Italy,Spain,Japan",
       hotspot_data := "30" }]),
   ("Operator A",
    [{ planID := "POA001", name := "Operator A Unlimited Starter® SL", price := "65",
       customerType := "Individual", dataAllowance := "Unlimited",
       marketSegment := "General", streamingQuality := "SD",
       businessType := "prepaid", activationFee := "15", popularity := "",
       international_data := "0", international_voice := "0",
       international_sms := "Unlimited", international_countries := "230+",
       hotspot_data := "5" },
     { planID := "POA031", name := "Operator A PREPAID Unlimited MAX℠", price := "65",
       customerType := "Individual", dataAllowance := "Unlimited",
       marketSegment := "General", streamingQuality := "4K UHD",
       businessType := "prepaid", activationFee := "15", popularity := "",
       international_data := "5", international_voice := "Unlimited",
       international_sms := "Unlimited", international_countries := "230+",
       hotspot_data := "15" }]),
   ("Operator T",
    [{ planID := "POT001", name := "Operator T 5G unlimited", price := "55",
       customerType := "Individual", dataAllowance := "Unlimited",
       marketSegment := "General", streamingQuality := "HD",
       businessType := "prepaid", activationFee := "0", popularity := "Best Value",
       international_data := "5", international_voice := "Unlimited",
       international_sms := "Unlimited", international_countries := "Mexico,Canada",
       hotspot_data := "10" },
     { planID := "POT012", name := "Go5G Military", price := "30",
       customerType := "Individual", dataAllowance := "Unlimited",
       marketSegment := "Military and veterans", streamingQuality := "HD",
       businessType := "prepaid", activationFee := "0", popularity := "",
       international_data := "5", international_voice := "Unlimited",
       international_sms := "Unlimited", international_countries := "Mexico,Canada",
       hotspot_data := "10" },
     { planID := "POT019", name := "Go5G Plus 55", price := "75",
       customerType := "Individual", dataAllowance := "Unlimited",
       marketSegment := "55+", streamingQuality := "4K UHD",
       businessType := "prepaid", activationFee := "0", popularity := "",
       international_data := "10", international_voice := "Unlimited",
       international_sms := "Unlimited",
       international_countries := "Mexico,Canada,UK,Germany,Italy,France,Spain",
       hotspot_data := "20" }]),
   ("Operator C",
    [{ planID := "POC001", name := "$15 Smartphone Plan", price := "15",
       customerType := "Individual", dataAllowance := "1",
       marketSegment := "General", streamingQuality := "SD",
       businessType := "prepaid", activationFee := "0", popularity := "",
       international_data := "0", international_voice := "0",
       international_sms := "0", international_countries := "",
       hotspot_data := "1" }])]

/-! ## `load_plans_from_csv` (source lines 47–160)

The CSV source is modelled as `Option (List (List String))`: `none` is
a missing file (`open` raising `FileNotFoundError`), `some rows` is the
parsed row list.  Unchecked Python indexing `row[i]` becomes `getElemE`
(raising `IndexError`), and the whole body runs in `Except` with the
source's catch-all `except Exception` applied at the top by
`loadPlansFromCsv`. -/

/-- Python `row[i]`: `IndexError` when out of range. -/
def getElemE (row : List String) (i : ℕ) : Except String String :=
  match row.get? i with
  | some v => Except.ok v
  | none => Except.error "IndexError"

/-- The Family & CUG price scan (source lines 87–90): the first
non-empty of columns 11–13, reading `row[i]` unchecked. -/
def familyPrice (row : List String) : Except String (Option String) := do
  let v11 ← getElemE row 11
  if pyStrip v11 ≠ "" then return some (pyStrip v11)
  else
    let v12 ← getElemE row 12
    if pyStrip v12 ≠ "" then return some (pyStrip v12)
    else
      let v13 ← getElemE row 13
      if pyStrip v13 ≠ "" then return some (pyStrip v13)
      else return none

/-- One iteration of the data-row loop (source lines 68–153). -/
def processRow (ops : Operators) (row : List String) : Except String Operators := do
  if row = [] || row.length < 10 then return ops
  else
    let operator_name := pyStrip (row.getD 0 "")
    let plan_id := pyStrip (row.getD 1 "")
    let market_segment := pyStrip (row.getD 2 "")
    let business_type := pyStrip (row.getD 3 "")
    let _location := pyStrip (row.getD 4 "")
    let popularity := pyStrip (row.getD 5 "")
    let customer_type := pyStrip (row.getD 8 "")
    let plan_name := pyStrip (row.getD 9 "")
    let price ←
      (if customer_type = "Individual" then do
        let v ← getElemE row 10
        if v ≠ "" then return some (pyStrip v) else return none
      else if customer_type = "Family & CUG" then familyPrice row
      else return none)
    match price with
    | none => return ops
    | some p =>
      if p = "" then return ops
      else
        let data_allowance := if row.length > 19 then pyStrip (row.getD 19 "") else ""
        let streaming_quality := if row.length > 27 then pyStrip (row.getD 27 "") else ""
        let activation_fee := if row.length > 15 then pyStrip (row.getD 15 "") else "0"
        let international_data := if row.length > 28 then pyStrip (row.getD 28 "") else ""
        let international_voice := if row.length > 29 then pyStrip (row.getD 29 "") else ""
        let international_sms := if row.length > 30 then pyStrip (row.getD 30 "") else ""
        let international_countries := if row.length > 31 then pyStrip (row.getD 31 "") else ""
        let hotspot_data := if row.length > 33 then pyStrip (row.getD 33 "") else ""
        let plan_data : Plan :=
          { planID := plan_id, name := plan_name, price := p,
            customerType := customer_type, dataAllowance := data_allowance,
            marketSegment := market_segment, streamingQuality := streaming_quality,
            businessType := business_type, activationFee := activation_fee,
            popularity := popularity, international_data := international_data,
            international_voice := international_voice,
            international_sms := international_sms,
            international_countries := international_countries,
            hotspot_data := hotspot_data }
        return addPlanToOps ops operator_name plan_data

/-- The data-row loop over a row list. -/
def loadRows (ops : Operators) (rows : List (List String)) : Except String Operators :=
  List.foldlM processRow ops rows

/-- The body of `load_plans_from_csv`'s `try:` block: missing file
raises, fewer than 5 rows makes `next(csv_reader)` raise
`StopIteration`, then the data rows are processed in order. -/
def loadPlansAux (src : Option (List (List String))) : Except String Operators := do
  match src with
  | none => Except.error "FileNotFoundError"
  | some allRows =>
    if allRows.length < 5 then Except.error "StopIteration"
    else loadRows [] (allRows.drop 5)

/-- `load_plans_from_csv`: the catch-all `except Exception` returns the
default operator table on any failure. -/
def loadPlansFromCsv (src : Option (List (List String))) : Operators :=
  match loadPlansAux src with
  | Except.ok ops => ops
  | Except.error _ => getDefaultOperators

/-! ## Customer profiles (source lines 386–502) -/

/-- The demographic sampling ranges of one profile. -/
structure Demographics where
  age_range : ℤ × ℤ
  income_levels : List String
  education : List String
  marital_status : List String
  locations : List String
deriving DecidableEq

/-- The usage sampling ranges of one profile. -/
structure UsageRanges where
  data_upload : ℚ × ℚ
  data_download : ℚ × ℚ
  voice_minutes : ℤ × ℤ
  sms_count : ℤ × ℤ
  international : String
  ott_usage : ℚ × ℚ
deriving DecidableEq

/-- One entry of `customer_profiles`. -/
structure CustomerProfile where
  type : String
  churn_risk : String
  demographics : Demographics
  usage : UsageRanges
deriving DecidableEq

/-- The fixed `customer_profiles` table. -/
def customerProfiles : List CustomerProfile :=
  [{ type := "Price Sensitive"
     churn_risk := "High"
     demographics :=
       { age_range := (20, 35)
         income_levels := ["Low", "Medium"]
         education := ["High School", "College"]
         marital_status := ["Single", "Married"]
         locations := ["Dallas", "Los Angeles"] }
     usage :=
       { data_upload := (3, 10)
         data_download := (15, 50)
         voice_minutes := (50, 200)
         sms_count := (10, 50)
         international := "Low"
         ott_usage := (0, 5) } },
   { type := "Feature Deficiency"
     churn_risk := "Medium"
     demographics :=
       { age_range := (25, 45)
         income_levels := ["Medium", "High"]
         education := ["College", "Professional"]
         marital_status := ["Married", "Family"]
         locations := ["Dallas", "New York"] }
     usage :=
       { data_upload := (10, 25)
         data_download := (50, 120)
         voice_minutes := (200, 500)
         sms_count := (30, 100)
         international := "Medium"
         ott_usage := (10, 25) } },
   { type := "Customer Service"
     churn_risk := "Medium to High"
     demographics :=
       { age_range := (30, 60)
         income_levels := ["Medium", "High"]
         education := ["College", "Professional"]
         marital_status := ["Married", "Family"]
         locations := ["Los Angeles", "Las Vegas", "Dallas"] }
     usage :=
       { data_upload := (10, 20)
         data_download := (40, 100)
         voice_minutes := (400, 800)
         sms_count := (50, 200)
         international := "Low"
         ott_usage := (5, 20) } },
   { type := "Network Quality"
     churn_risk := "High"
     demographics :=
       { age_range := (25, 50)
         income_levels := ["Medium", "High"]
         education := ["College", "Professional"]
         marital_status := ["Married", "Family"]
         locations := ["Rural California", "Rural Texas"] }
     usage :=
       { data_upload := (15, 30)
         data_download := (80, 150)
         voice_minutes := (100, 300)
         sms_count := (20, 80)
         international := "Low"
         ott_usage := (15, 30) } },
   { type := "Loyal Customer"
     churn_risk := "Low"
     demographics :=
       { age_range := (35, 65)
         income_levels := ["Medium", "High"]
         education := ["College", "Professional"]
         marital_status := ["Married", "Family"]
         locations := ["Los Angeles", "New York"] }
     usage :=
       { data_upload := (15, 40)
         data_download := (75, 200)
         voice_minutes := (300, 700)
         sms_count := (50, 200)
         international := "Medium"
         ott_usage := (15, 40) } },
   { type := "At Risk"
     churn_risk := "Medium"
     demographics :=
       { age_range := (25, 40)
         income_levels := ["Medium"]
         education := ["College", "Professional"]
         marital_status := ["Single", "Married"]
         locations := ["Dallas", "Las Vegas"] }
     usage :=
       { data_upload := (10, 20)
         data_download := (50, 100)
         voice_minutes := (200, 400)
         sms_count := (30, 80)
         international := "Low"
         ott_usage := (10, 25) } }]

/-- `churn_reasons` (source lines 505–512).  The dictionary holds all
six profile names; `generate_synthetic_record` only reaches the lookup
after resolving `profile_type` against `customer_profiles`, so a
`KeyError` cannot occur and the map is modelled total. -/
def churnReasons (profile_type : String) : String :=
  if profile_type = "Price Sensitive" then "Price sensitivity"
  else if profile_type = "Feature Deficiency" then
    "Competitor offered better streaming quality and international options"
  else if profile_type = "Customer Service" then
    "Multiple unresolved complaints and poor customer service"
  else if profile_type = "Network Quality" then
    "Network coverage and speed issues in their location"
  else ""

/-! ## Randomness oracles

`random.randint(lo, hi)` returns a uniform integer in the inclusive
range `[lo, hi]`.  The draw is modelled by an oracle integer `d`: for
`lo ≤ hi` the value `lo + d % (hi - lo + 1)` ranges over exactly the
integers `randint` can return. -/

/-- `random_int(min_val, max_val)` (source lines 7–9), with the draw
made explicit. -/
def randomInt (lo hi : ℤ) (d : ℤ) : ℤ :=
  lo + d.emod (hi - lo + 1)

/-- `random.choice(values)` with the draw made explicit: any index can
be drawn, reduced mod the length. -/
def listChoice (values : List String) (d : ℕ) : String :=
  values.getD (d % values.length) ""

/-! ## Churn status / score / category / reason derivation
(source lines 1221–1242), and CLTV derivation (lines 1244–1250). -/

/-- The churn fields of a generated record. -/
structure ChurnInfo where
  status : String
  score : ℤ
  category : String
  reason : String
deriving DecidableEq

/-- Lines 1221–1242 of `generate_synthetic_record`: derive churn
status, score, category and reason from the resolved profile and the
churn outcome.  `scoreDraw` feeds whichever `random_int` call the
branch makes; `probDraw` is the `random.random()` draw of line 1236. -/
def deriveChurn (profile : CustomerProfile) (is_churned : Bool)
    (scoreDraw : ℤ) (probDraw : ℚ) : ChurnInfo :=
  if is_churned then
    { status := "Churned", score := randomInt 70 100 scoreDraw,
      category := profile.type, reason := churnReasons profile.type }
  else if profile.type = "At Risk" ∨ profile.churn_risk = "High" ∨
      profile.churn_risk = "Medium to High" then
    { status := "At Risk", score := randomInt 60 85 scoreDraw,
      category := "", reason := "" }
  else if profile.churn_risk = "Medium" then
    if probDraw > 7 / 10 then
      { status := "At Risk", score := randomInt 45 65 scoreDraw,
        category := "", reason := "" }
    else
      { status := "Not Churned", score := randomInt 30 45 scoreDraw,
        category := "", reason := "" }
  else
    { status := "Not Churned", score := randomInt 5 30 scoreDraw,
      category := "", reason := "" }

/-- The profile resolution of `generate_synthetic_record` (lines
1129–1131: unknown profile types raise `ValueError`) followed by the
churn-field derivation. -/
def generateChurnInfo (profile_type : String) (is_churned : Bool)
    (scoreDraw : ℤ) (probDraw : ℚ) : Except String ChurnInfo :=
  match customerProfiles.find? (fun p => p.type = profile_type) with
  | none => Except.error "ValueError"
  | some profile => Except.ok (deriveChurn profile is_churned scoreDraw probDraw)

/-- Lines 1244–1250: the customer-lifetime-value draw, bucketed by the
income tier (`random_int` is inclusive at both ends). -/
def deriveCltv (income : String) (d : ℤ) : ℤ :=
  if income = "Low" then randomInt 1000 3000 d
  else if income = "Medium" then randomInt 3000 6000 d
  else randomInt 6000 12000 d

/-! ## `generate_multiple_records` category distribution
(source lines 1304–1361) -/

/-- The three customer categories of the distribution loop. -/
inductive Category where
  | churned
  | at_risk
  | loyal
deriving DecidableEq

/-- `customer_distribution` (lines 1312–1316). -/
def customerDistribution (c : Category) : List String :=
  match c with
  | Category.churned => ["Price Sensitive", "Feature Deficiency", "Customer Service", "Network Quality"]
  | Category.at_risk => ["At Risk"]
  | Category.loyal => ["Loyal Customer"]

/-- The running `category_counts` dictionary. -/
structure CatCounts where
  churned : ℕ
  at_risk : ℕ
  loyal : ℕ
deriving DecidableEq

/-- `min_category_counts` for `count = 20` (lines 1329–1333):
`int(20 * 0.4) = 8`, `int(20 * 0.1) = 2` — Python's float products are
exactly 8.0 and 2.0 here, so truncation gives 8 and 2. -/
def minCounts20 : CatCounts :=
  { churned := 8, at_risk := 2, loyal := 2 }

/-- Lines 1343–1351: pick this iteration's category — forced while a
minimum is unmet, otherwise the `random_choice(["churned", "churned",
"at_risk", "loyal"])` outcome (the oracle supplies it). -/
def pickCategory (minc counts : CatCounts) (draw : Category) : Category :=
  if counts.churned < minc.churned then Category.churned
  else if counts.at_risk < minc.at_risk then Category.at_risk
  else if counts.loyal < minc.loyal then Category.loyal
  else draw

/-- `category_counts[category] += 1`. -/
def bumpCount (counts : CatCounts) (c : Category) : CatCounts :=
  match c with
  | Category.churned => { counts with churned := counts.churned + 1 }
  | Category.at_risk => { counts with at_risk := counts.at_risk + 1 }
  | Category.loyal => { counts with loyal := counts.loyal + 1 }

/-- `n` iterations of the generation loop starting at iteration `i`
with running counts `counts`; `draws i` is the random category drawn at
iteration `i` when no minimum is unmet. -/
def runCategoriesFrom (minc : CatCounts) (draws : ℕ → Category)
    (i : ℕ) (counts : CatCounts) : ℕ → CatCounts
  | 0 => counts
  | n + 1 =>
    runCategoriesFrom minc draws (i + 1)
      (bumpCount counts (pickCategory minc counts (draws i))) n

/-- The whole `for i in range(count)` loop of `generate_multiple_records`
(lines 1341–1353), tracking `category_counts` from zero. -/
def runCategories (minc : CatCounts) (draws : ℕ → Category) (count : ℕ) : CatCounts :=
  runCategoriesFrom minc draws 0 { churned := 0, at_risk := 0, loyal := 0 } count

/-- Lines 1355–1361: the profile type drawn for a category, and the
churn flag (`is_churned = category == "churned"`). -/
def pickProfileType (c : Category) (d : ℕ) : String :=
  listChoice (customerDistribution c) d

/-! ## `find_better_competitor_plan` (source lines 528–814)

The function runs in `Except`: the only way its body can raise is the
`float(...)` calls it makes on strings (the top-of-function usage-metric
conversions, and the reason chain of the Feature Deficiency branch). -/

/-- The usage-metric dictionary built by `generate_dynamic_insight`
(lines 964–974).  Fields that the generated record stores as formatted
strings are strings; fields it stores as ints are integers. -/
structure UsageMetrics where
  data_download : String
  data_upload : String
  voice_minutes : ℤ
  sms_count : ℤ
  intl_voice : ℤ
  intl_data_upload : String
  intl_data_download : String
  intl_sms : ℤ
  ott_usage : String
deriving DecidableEq

/-- The data-sufficiency test of the Price Sensitive branch (lines
576–583): `"Unlimited"` always suffices; otherwise the allowance with
`"GB"` stripped must parse and be at least the download usage; a parse
failure counts as insufficient. -/
def dataSufficient (plan : Plan) (data_download : ℚ) : Bool :=
  if plan.dataAllowance = "Unlimited" then true
  else
    match parseFloat ⟨removeGB plan.dataAllowance.data⟩ with
    | some v => !(v < data_download)
    | none => false

/-- The Price Sensitive scan's mutable state (`cheapest_plan`,
`cheapest_operator`, `cheapest_price`, `reason`; `none` as
`cheapestPrice` models the initial `float('inf')`). -/
structure PSState where
  cheapest : Option (String × Plan)
  cheapestPrice : Option ℚ
  reason : String
deriving DecidableEq

/-- `price < cheapest_price` where `cheapest_price` may be `inf`. -/
def psLtB (q : ℚ) (o : Option ℚ) : Bool :=
  match o with
  | none => true
  | some c => decide (q < c)

/-- One plan of the Price Sensitive scan (lines 564–589). -/
def psStep (cp dd : ℚ) (st : PSState) (e : String × Plan) : PSState :=
  let price := extractPriceNumeric e.2.price
  if cp ≤ price then st
  else
    let price_diff := cp - price
    if psLtB price st.cheapestPrice then
      if dataSufficient e.2 dd then
        { cheapest := some e, cheapestPrice := some price,
          reason := "$" ++ fmt2 price_diff ++ " monthly savings" }
      else st
    else st

/-- The Price Sensitive nested loops over non-champion operators. -/
def psLoop (cp dd : ℚ) (operators : Operators) : PSState :=
  List.foldl
    (fun st x =>
      if x.1 = "Operator B (champion)" then st
      else List.foldl (fun st2 p => psStep cp dd st2 (x.1, p)) st x.2)
    { cheapest := none, cheapestPrice := none, reason := "" } operators

/-- The numeric value of an allowance field in the Feature Deficiency
scoring (lines 622–639 and 649–666): `"Unlimited"` counts as 1000, a
parse failure as 0. -/
def fdNumVal (s : String) : ℚ :=
  if s = "Unlimited" then 1000
  else
    match parseFloat s with
    | some v => v
    | none => 0

/-- The country-list improvement test (line 678). -/
def fdCountriesBetter (champion plan : Plan) : Bool :=
  plan.international_countries ≠ "" &&
    (champion.international_countries = "" ||
     champion.international_countries.data.length < plan.international_countries.data.length)

/-- The Feature Deficiency feature score of one candidate plan
(lines 611–679); total because every `float` inside sits in a
`try`/`except`. -/
def fdFeatureScore (champion plan : Plan) : ℚ :=
  let s1 : ℚ :=
    if plan.streamingQuality = "4K UHD" ∧ champion.streamingQuality ≠ "4K UHD" then 2
    else if plan.streamingQuality = "HD" ∧ champion.streamingQuality = "SD" then 1
    else 0
  let cIntl := fdNumVal champion.international_data
  let pIntl := fdNumVal plan.international_data
  let s2 : ℚ := if cIntl < pIntl then min 3 ((pIntl - cIntl) / 5) else 0
  let cHot := fdNumVal champion.hotspot_data
  let pHot := fdNumVal plan.hotspot_data
  let s3 : ℚ := if cHot < pHot then min 2 ((pHot - cHot) / 10) else 0
  let s4 : ℚ := if fdCountriesBetter champion plan then 1 else 0
  s1 + s2 + s3 + s4

/-- The Feature Deficiency reason chain (lines 687–697).  Line 690
applies `.replace("unlimited", "1000")` (lower case!) to the candidate
plan's allowance before `float`, so a literal `"Unlimited"` reaches
`float` unchanged and raises `ValueError`; the champion side uses the
capitalized pattern. -/
def fdReason (champion plan : Plan) : Except String String := do
  if plan.streamingQuality = "4K UHD" ∧ champion.streamingQuality ≠ "4K UHD" then
    return "better streaming quality (4K UHD)"
  else
    let pv ← pyFloat ⟨replaceUnlimitedLower plan.international_data.data⟩
    let cv ← pyFloat ⟨replaceUnlimitedUpper champion.international_data.data⟩
    if cv < pv then return "better international data allowance"
    else
      let pHot := fdNumVal plan.hotspot_data
      let cHot := fdNumVal champion.hotspot_data
      if cHot < pHot then
        return ("larger hotspot data allowance (" ++ floatRepr pHot ++ "GB vs " ++
          floatRepr cHot ++ "GB)")
      else if fdCountriesBetter champion plan then
        return "wider international coverage"
      else
        return "better overall feature set"

/-- The Feature Deficiency scan state (`best_feature_plan`,
`best_feature_operator`, `best_feature_score`, `reason`). -/
structure FDState where
  best : Option (String × Plan)
  bestScore : ℚ
  reason : String
deriving DecidableEq

/-- One plan of the Feature Deficiency scan (lines 605–697). -/
def fdStep (cp : ℚ) (champion : Plan) (st : FDState) (e : String × Plan) :
    Except String FDState := do
  let price := extractPriceNumeric e.2.price
  if cp * (13 / 10) < price then return st
  else
    let score := fdFeatureScore champion e.2
    if st.bestScore < score then
      let r ← fdReason champion e.2
      return { best := some e, bestScore := score, reason := r }
    else return st

/-- The Feature Deficiency nested loops. -/
def fdLoop (cp : ℚ) (champion : Plan) (operators : Operators) : Except String FDState :=
  List.foldlM
    (fun st x =>
      if x.1 = "Operator B (champion)" then pure st
      else List.foldlM (fun st2 p => fdStep cp champion st2 (x.1, p)) st x.2)
    { best := none, bestScore := -1, reason := "" } operators

/-- The Customer Service segment scan (lines 712–721): first Operator T
plan priced at most 1.2× the champion price whose market segment
matches. -/
def csFindSegment (cp : ℚ) (seg : String) : List Plan → Option Plan
  | [] => none
  | p :: rest =>
    if cp * (12 / 10) < extractPriceNumeric p.price then csFindSegment cp seg rest
    else if p.marketSegment = seg then some p
    else csFindSegment cp seg rest

/-- Python `min(plans, key=lambda p: abs(price(p) - cp))`: the first
plan attaining the minimal absolute price difference. -/
def minByAbsDiff (cp : ℚ) : List Plan → Option Plan
  | [] => none
  | p :: rest =>
    match minByAbsDiff cp rest with
    | none => some p
    | some b =>
      if |extractPriceNumeric p.price - cp| ≤ |extractPriceNumeric b.price - cp| then some p
      else some b

/-- The Network Quality unlimited scan (lines 741–749): first Operator T
plan with `"Unlimited"` data priced at most 1.2× the champion price. -/
def nqFindUnlimited (cp : ℚ) : List Plan → Option Plan
  | [] => none
  | p :: rest =>
    if p.dataAllowance = "Unlimited" then
      if cp * (12 / 10) < extractPriceNumeric p.price then nqFindUnlimited cp rest
      else some p
    else nqFindUnlimited cp rest

/-- Is `p`'s sort key strictly greater than `b`'s in the Network
Quality fallback `max` (line 757)?  The key is the allowance string,
with `"Unlimited"` mapped to `float('inf')`.  (Python would raise
`TypeError` comparing a string key with `inf`, but the fallback list
can never contain an `"Unlimited"` plan — the first scan would have
returned it — so only the all-string case is ever exercised.) -/
def nqKeyGt (p b : Plan) : Bool :=
  match decide (p.dataAllowance = "Unlimited"), decide (b.dataAllowance = "Unlimited") with
  | true, true => false
  | true, false => true
  | false, true => false
  | false, false => charListLt b.dataAllowance.data p.dataAllowance.data

/-- Python `max(candidates, key=...)`: the first plan attaining the
maximal key. -/
def nqMaxBy : List Plan → Option Plan
  | [] => none
  | p :: rest =>
    match nqMaxBy rest with
    | none => some p
    | some b => if nqKeyGt b p then some b else some p

/-- The At Risk scan state (`best_value_plan`, `best_value_operator`,
`best_value_score`, `reason`). -/
structure ARState where
  best : Option (String × Plan)
  bestScore : ℚ
  reason : String
deriving DecidableEq

/-- One plan of the At Risk scan (lines 776–808). -/
def arStep (cp : ℚ) (champion : Plan) (st : ARState) (e : String × Plan) : ARState :=
  let price := extractPriceNumeric e.2.price
  if cp ≤ price then st
  else
    let price_ratio := if 0 < price then cp / price else 1
    let v1 : ℚ := min 5 ((price_ratio - 1) * 10)
    let v2 : ℚ :=
      if e.2.dataAllowance = "Unlimited" ∧ champion.dataAllowance ≠ "Unlimited" then 3 else 0
    let v3 : ℚ := if e.2.marketSegment = champion.marketSegment then 2 else 0
    let value_score := v1 + v2 + v3
    if st.bestScore < value_score then
      let savings := cp - price
      { best := some e, bestScore := value_score,
        reason :=
          if 0 < savings then "$" ++ fmt2 savings ++ " monthly savings with comparable features"
          else "better overall value" }
    else st

/-- The At Risk nested loops. -/
def arLoop (cp : ℚ) (champion : Plan) (operators : Operators) : ARState :=
  List.foldl
    (fun st x =>
      if x.1 = "Operator B (champion)" then st
      else List.foldl (fun st2 p => arStep cp champion st2 (x.1, p)) st x.2)
    { best := none, bestScore := -1, reason := "" } operators

/-- `find_better_competitor_plan(profile_type, champion_plan,
operators, usage_metrics)` (lines 528–814).  Returns
`Except.error "ValueError"` exactly when one of the source's unguarded
`float(...)` calls would raise. -/
def findBetterCompetitorPlan (profile_type : String) (champion_plan : Plan)
    (operators : Operators) (um : UsageMetrics) :
    Except String (Option (String × Plan × String)) := do
  let champion_price := extractPriceNumeric champion_plan.price
  let data_download ← pyFloat um.data_download
  let iu ← pyFloat um.intl_data_upload
  let idn ← pyFloat um.intl_data_download
  let _intl_data_usage := iu + idn
  let _ott ← pyFloat um.ott_usage
  if profile_type = "Price Sensitive" then
    let st := psLoop champion_price data_download operators
    match st.cheapest with
    | some e => return some (e.1, e.2, st.reason)
    | none => return none
  else if profile_type = "Feature Deficiency" then
    let st ← fdLoop champion_price champion_plan operators
    match st.best with
    | some e => if 1 < st.bestScore then return some (e.1, e.2, st.reason) else return none
    | none => return none
  else if profile_type = "Customer Service" then
    match lookupOp operators "Operator T" with
    | none => return none
    | some plans =>
      let best :=
        match csFindSegment champion_price champion_plan.marketSegment plans with
        | some p => some p
        | none => if plans ≠ [] then minByAbsDiff champion_price plans else none
      match best with
      | some p => return some ("Operator T", p, "better customer service")
      | none => return none
  else if profile_type = "Network Quality" then
    match lookupOp operators "Operator T" with
    | none => return none
    | some plans =>
      let best :=
        match nqFindUnlimited champion_price plans with
        | some p => some p
        | none =>
          if plans ≠ [] then
            nqMaxBy (plans.filter
              (fun p => !(champion_price * (12 / 10) < extractPriceNumeric p.price)))
          else none
      match best with
      | some p => return some ("Operator T", p, "better network coverage in rural areas")
      | none => return none
  else if profile_type = "At Risk" then
    let st := arLoop champion_price champion_plan operators
    match st.best with
    | some e => if 2 < st.bestScore then return some (e.1, e.2, st.reason) else return none
    | none => return none
  else
    return none

/-! ## `find_reasons_to_stay` (source lines 816–919) -/

/-- Does any non-champion plan satisfy `pred`? (the repeated
double-loop-with-break pattern of `find_reasons_to_stay`). -/
def anyCompetitorPlan (operators : Operators) (pred : Plan → Bool) : Bool :=
  operators.any (fun x => !(x.1 = "Operator B (champion)") && x.2.any pred)

/-- How many non-champion plans satisfy `pred`? (the 4K-counting loop,
lines 866–873). -/
def countCompetitorPlans (operators : Operators) (pred : Plan → Bool) : ℕ :=
  (operators.map (fun x =>
    if x.1 = "Operator B (champion)" then 0 else (x.2.filter pred).length)).sum

/-- `find_reasons_to_stay(profile_type, champion_plan, operators,
usage_metrics)`: the retention-reason chain for loyal customers.  The
only possible exceptions are the four usage-metric `float` conversions
at the top (lines 835–837). -/
def findReasonsToStay (profile_type : String) (champion_plan : Plan)
    (operators : Operators) (um : UsageMetrics) : Except String String := do
  let _ := profile_type
  let champion_price := extractPriceNumeric champion_plan.price
  let _dd ← pyFloat um.data_download
  let iu ← pyFloat um.intl_data_upload
  let idn ← pyFloat um.intl_data_download
  let _intl_data_usage := iu + idn
  let _ott ← pyFloat um.ott_usage
  if champion_plan.popularity = "Best Value" then
    return "optimum combination of price and features in our 'Best Value' plan"
  else if champion_plan.marketSegment ≠ "General" ∧
      !(anyCompetitorPlan operators
        (fun p => decide (p.marketSegment = champion_plan.marketSegment))) then
    return ("exclusive benefits for " ++ pyLower champion_plan.marketSegment ++ " customers")
  else
    let uhd_competitors :=
      countCompetitorPlans operators (fun p => decide (p.streamingQuality = "4K UHD"))
    if champion_plan.streamingQuality = "4K UHD" ∧ uhd_competitors = 0 then
      return "exclusive 4K UHD streaming quality not offered by competitors"
    else if champion_plan.streamingQuality = "4K UHD" ∧ uhd_competitors ≤ 2 then
      return "premium 4K UHD streaming quality offered by few competitors"
    else if champion_plan.dataAllowance = "Unlimited" ∧
        !(anyCompetitorPlan operators (fun p =>
          decide (p.dataAllowance = "Unlimited") &&
          decide (extractPriceNumeric p.price < champion_price))) then
      return "best price for unlimited data in the market"
    else if (strContains champion_plan.customerType "Family" ||
        strContains champion_plan.customerType "CUG") = true ∧
        !(anyCompetitorPlan operators (fun p =>
          (strContains p.customerType "Family" || strContains p.customerType "CUG") &&
          decide (extractPriceNumeric p.price < champion_price))) then
      return "best value multi-line family plan"
    else
      return ""

/-! ## The generated customer record, as read by the insight composer

`generate_synthetic_record` builds a flat dict; `Record` holds exactly
the entries `generate_dynamic_insight`, `find_better_competitor_plan`
and the fallback `customer_insights` templates read, with the value
type each entry carries in the generated dict (usage gigabyte fields
are `f"{x:.2f}"` strings, counters are ints).

`productOffering_data` models the `record["productOffering.data"]`
lookup of line 959: generated records do not contain that key (the
lookup would raise `KeyError`), but it is only reached when the
record's plan name is missing from the champion catalog; records used
in the theorems below carry a value for it. -/
structure Record where
  planName : String
  price : String
  customerType : String
  marketSegment : String
  satisfaction : ℤ
  complaints : ℤ
  cltv : ℤ
  churnStatus : String
  churnScore : ℤ
  location : String
  relationshipMonths : ℤ
  data_download : String
  data_upload : String
  voice_minutes : ℤ
  sms_count : ℤ
  intl_voice : ℤ
  intl_data_upload : String
  intl_data_download : String
  intl_sms : ℤ
  ott_usage : String
  productOffering_data : String
deriving DecidableEq

/-- The `usage_metrics` dict of lines 964–974. -/
def usageMetricsOf (r : Record) : UsageMetrics :=
  { data_download := r.data_download, data_upload := r.data_upload,
    voice_minutes := r.voice_minutes, sms_count := r.sms_count,
    intl_voice := r.intl_voice, intl_data_upload := r.intl_data_upload,
    intl_data_download := r.intl_data_download, intl_sms := r.intl_sms,
    ott_usage := r.ott_usage }

/-! ## The static fallback templates `customer_insights`
(source lines 1020–1032).  The Feature Deficiency template runs
`float(...)` on two record fields, so the lambdas are `Except`-valued. -/

def customerInsightPS (r : Record) : Except String String :=
  pure ("**Price-Sensitive Churn Insight:** Customer churned from Operator B (Champion)'s \"" ++
    r.planName ++ "\" ($" ++ r.price ++
    ") due to price sensitivity. Analysis suggests they likely switched to Operator C's \"$15 Smartphone Plan\" which offers similar basic functionality at a significantly lower price point ($15 vs $" ++
    r.price ++ ").")

def customerInsightFD (r : Record) : Except String String := do
  let iu ← pyFloat r.intl_data_upload
  let idn ← pyFloat r.intl_data_download
  return ("**Feature Deficiency Churn Insight:** Customer churned from Operator B (Champion)'s \"" ++
    r.planName ++ "\" " ++ r.customerType ++
    " plan due to feature limitations despite acceptable satisfaction score (" ++
    toString r.satisfaction ++ "/5). Analysis shows heavy international usage (" ++
    toString r.intl_voice ++ " minutes, " ++ fmt2 (iu + idn) ++
    "GB total international data) and high OTT consumption (" ++ r.ott_usage ++
    "GB), suggesting they switched to Operator T's \"Go5G Plus 55\" plan which offers better international coverage and streaming quality.")

def customerInsightCS (r : Record) : Except String String :=
  pure ("**Customer Service Churn Insight:** This customer churned primarily due to service quality issues, evidenced by the extremely low satisfaction score (" ++
    toString r.satisfaction ++ "/5) and high number of complaints (" ++
    toString r.complaints ++ ") over a " ++ toString r.relationshipMonths ++
    "-month relationship. Despite subscribing to Operator B (Champion)'s premium \"" ++
    r.planName ++
    "\" plan, they likely switched to Operator T's \"Go5G Military\" plan which offers dedicated customer care and comparable features.")

def customerInsightNQ (r : Record) : Except String String :=
  pure ("**Network Quality Churn Insight:** This high-value customer ($" ++
    toString r.cltv ++ " CLTV) churned despite subscribing to Operator B (Champion)'s premium \"" ++
    r.planName ++ "\" plan due to network issues in " ++ r.location ++
    ". Their extremely high data usage (" ++ r.data_download ++
    "GB download) and significant OTT consumption (" ++ r.ott_usage ++
    "GB) suggests streaming and connectivity problems in their area. They likely switched to Operator T's \"Operator T 5G unlimited\" plan, which has better rural coverage.")

def customerInsightLoyal (r : Record) : Except String String :=
  pure ("**Loyal Customer Insight:** This high-value " ++ pyLower r.customerType ++
    " plan customer ($" ++ toString r.cltv ++
    " CLTV) shows strong loyalty indicators with excellent satisfaction (" ++
    toString r.satisfaction ++ "/5) and minimal complaints (" ++ toString r.complaints ++
    ") despite heavy usage across all services. They fully utilize the premium features of Operator B (Champion)'s \"" ++
    r.planName ++ "\" plan including high data consumption (" ++ r.data_download ++
    "GB), international usage, and extensive OTT streaming (" ++ r.ott_usage ++
    "GB), justifying the premium price point. They have not been tempted by Operator A or Operator T's competing family plans.")

def customerInsightAR (r : Record) : Except String String :=
  pure ("**At-Risk Customer Insight:** This medium-value customer ($" ++ toString r.cltv ++
    " CLTV) shows moderate churn risk (Score: " ++ toString r.churnScore ++
    ") despite having no immediate issues. The moderate satisfaction score (" ++
    toString r.satisfaction ++ "/5) and average complaints (" ++ toString r.complaints ++
    ") indicate potential dissatisfaction with value received for the $" ++ r.price ++
    " price point for Operator B (Champion)'s \"" ++ r.planName ++
    "\" plan. Competitor Operator T offers \"Go5G Military\" plan with better military discounts at $30, making this customer vulnerable to targeted competitor offers.")

/-- The `customer_insights` dict lookup; an unknown profile type is
Python's `KeyError`. -/
def customerInsights (profile_type : String) : Option (Record → Except String String) :=
  if profile_type = "Price Sensitive" then some customerInsightPS
  else if profile_type = "Feature Deficiency" then some customerInsightFD
  else if profile_type = "Customer Service" then some customerInsightCS
  else if profile_type = "Network Quality" then some customerInsightNQ
  else if profile_type = "Loyal Customer" then some customerInsightLoyal
  else if profile_type = "At Risk" then some customerInsightAR
  else none

/-! ## `generate_dynamic_insight` (source lines 921–1017)

Python returns a string on every template path but falls off the end
(returning `None`) when a better plan is found for a churned customer
whose profile type is none of the four churned archetypes; the result
type `Option String` models that.  `Except.error` models the uncaught
exceptions the body can raise (`KeyError` on a catalog without the
champion operator or an unknown profile type, and any `ValueError`
propagating out of `find_better_competitor_plan` /
`find_reasons_to_stay` / the Feature Deficiency template). -/
def generateDynamicInsight (record : Record) (operators : Operators)
    (profile_type : String) : Except String (Option String) := do
  let plan_name := record.planName
  let plan_price := record.price
  let customer_type := record.customerType
  let champPlans ←
    match lookupOp operators "Operator B (champion)" with
    | some plans => pure plans
    | none => Except.error "KeyError"
  let champion_plan :=
    match champPlans.find? (fun p => p.name = plan_name) with
    | some p => p
    | none =>
      { name := plan_name, price := plan_price, customerType := customer_type,
        marketSegment := record.marketSegment,
        dataAllowance := record.productOffering_data, streamingQuality := "HD",
        planID := "", businessType := "", activationFee := "", popularity := "",
        international_data := "0", international_voice := "0",
        international_sms := "0", international_countries := "",
        hotspot_data := "0" }
  let um := usageMetricsOf record
  if record.churnStatus = "Churned" then
    let res ← findBetterCompetitorPlan profile_type champion_plan operators um
    match res with
    | some (better_operator, better_plan, reason) =>
      if profile_type = "Price Sensitive" then
        return some ("**Price-Sensitive Churn Insight:** Customer churned from Operator B (Champion)'s \"" ++
          plan_name ++ "\" ($" ++ plan_price ++
          ") due to price sensitivity. Analysis suggests they likely switched to " ++
          better_operator ++ "'s \"" ++ better_plan.name ++ "\" which offers " ++ reason ++
          " while still providing sufficient data for their usage pattern (" ++
          um.data_download ++ "GB monthly).")
      else if profile_type = "Feature Deficiency" then do
        let iu ← pyFloat um.intl_data_upload
        let idn ← pyFloat um.intl_data_download
        return some ("**Feature Deficiency Churn Insight:** Customer churned from Operator B (Champion)'s \"" ++
          plan_name ++ "\" " ++ customer_type ++
          " plan due to feature limitations despite acceptable satisfaction score (" ++
          toString record.satisfaction ++ "/5). Analysis shows heavy international usage (" ++
          toString um.intl_voice ++ " minutes, " ++ fmt2 (iu + idn) ++
          "GB total international data) and high OTT consumption (" ++ um.ott_usage ++
          "GB), suggesting they switched to " ++ better_operator ++ "'s \"" ++
          better_plan.name ++ "\" which offers " ++ reason ++ ".")
      else if profile_type = "Customer Service" then
        return some ("**Customer Service Churn Insight:** This customer churned primarily due to service quality issues, evidenced by the extremely low satisfaction score (" ++
          toString record.satisfaction ++ "/5) and high number of complaints (" ++
          toString record.complaints ++ ") over a " ++ toString record.relationshipMonths ++
          "-month relationship. Despite subscribing to Operator B (Champion)'s premium \"" ++
          plan_name ++ "\" plan, they likely switched to " ++ better_operator ++ "'s \"" ++
          better_plan.name ++ "\" which offers " ++ reason ++ ".")
      else if profile_type = "Network Quality" then
        return some ("**Network Quality Churn Insight:** This high-value customer ($" ++
          toString record.cltv ++
          " CLTV) churned despite subscribing to Operator B (Champion)'s premium \"" ++
          plan_name ++ "\" plan due to network issues in " ++ record.location ++
          ". Their extremely high data usage (" ++ um.data_download ++
          "GB download) and significant OTT consumption (" ++ um.ott_usage ++
          "GB) suggests streaming and connectivity problems in their area. They likely switched to " ++
          better_operator ++ "'s \"" ++ better_plan.name ++ "\" which offers " ++ reason ++ ".")
      else
        return none
    | none =>
      match customerInsights profile_type with
      | some f => do
        let t ← f record
        return some t
      | none => Except.error "KeyError"
  else if record.churnStatus = "At Risk" then
    let res ← findBetterCompetitorPlan "At Risk" champion_plan operators um
    match res with
    | some (better_operator, better_plan, reason) =>
      return some ("**At-Risk Customer Insight:** This medium-value customer ($" ++
        toString record.cltv ++ " CLTV) shows moderate churn risk (Score: " ++
        toString record.churnScore ++
        ") despite having no immediate issues. The moderate satisfaction score (" ++
        toString record.satisfaction ++ "/5) and average complaints (" ++
        toString record.complaints ++
        ") indicate potential dissatisfaction with value received for the $" ++ plan_price ++
        " price point for Operator B (Champion)'s \"" ++ plan_name ++ "\" plan. " ++
        better_operator ++ "'s \"" ++ better_plan.name ++ "\" offers " ++ reason ++
        ", making this customer vulnerable to targeted competitor offers.")
    | none =>
      return some ("**At-Risk Customer Insight:** This customer shows moderate churn risk (Score: " ++
        toString record.churnScore ++ ") despite reasonable satisfaction (" ++
        toString record.satisfaction ++ "/5). Their $" ++ toString record.cltv ++
        " CLTV and usage pattern suggest they could be exploring competitor offers or experiencing undocumented service issues. Proactive retention offering should focus on plan benefits and service improvements.")
  else do
    let loyalty_reason ← findReasonsToStay profile_type champion_plan operators um
    if loyalty_reason ≠ "" then
      return some ("**Loyal Customer Insight:** This high-value " ++ pyLower customer_type ++
        " plan customer ($" ++ toString record.cltv ++
        " CLTV) shows strong loyalty indicators with excellent satisfaction (" ++
        toString record.satisfaction ++ "/5) and minimal complaints (" ++
        toString record.complaints ++
        ") despite heavy usage across all services. They fully utilize the premium features of Operator B (Champion)'s \"" ++
        plan_name ++ "\" plan including high data consumption (" ++ um.data_download ++
        "GB), international usage, and extensive OTT streaming (" ++ um.ott_usage ++
        "GB). Our analysis indicates they value the " ++ loyalty_reason ++
        ", which competitors cannot easily match.")
    else
      return some ("**Loyal Customer Insight:** This high-value " ++ pyLower customer_type ++
        " plan customer ($" ++ toString record.cltv ++
        " CLTV) shows strong loyalty indicators with excellent satisfaction (" ++
        toString record.satisfaction ++ "/5) and minimal complaints (" ++
        toString record.complaints ++
        ") despite heavy usage across all services. They fully utilize the premium features of Operator B (Champion)'s \"" ++
        plan_name ++ "\" plan including high data consumption (" ++ um.data_download ++
        "GB), international usage, and extensive OTT streaming (" ++ um.ott_usage ++
        "GB), justifying the premium price point.")

/-! ## `select_appropriate_plan` (source lines 1034–1123) -/

/-- `random.choice` over plans, with the drawn index explicit (reduced
mod the length; any index is drawable). -/
def randomChoice (l : List Plan) (d : ℕ) : Option Plan :=
  l.get? (d % l.length)

/-- `select_appropriate_plan(profile_type, all_plans, is_churned)`.
`pick i` supplies the index drawn by the `random_choice` at call site
`i`.  Returns `none` exactly when `all_plans` is empty (the source's
`return None`). -/
def selectAppropriatePlan (profile_type : String) (all_plans : List Plan)
    (is_churned : Bool) (pick : ℕ → ℕ) : Option Plan :=
  if all_plans = [] then none
  else
    let numeric_price := fun (p : Plan) => extractPriceNumeric p.price
    let budget_plans := all_plans.filter (fun p => decide (numeric_price p < 50))
    let mid_range_plans :=
      all_plans.filter (fun p => decide (50 ≤ numeric_price p ∧ numeric_price p < 80))
    let premium_plans := all_plans.filter (fun p => decide (80 ≤ numeric_price p))
    let fallback := randomChoice all_plans (pick 9)
    if profile_type = "Price Sensitive" then
      if is_churned then
        let candidate_plans := mid_range_plans ++ premium_plans
        if candidate_plans ≠ [] then randomChoice candidate_plans (pick 0) else fallback
      else
        if budget_plans ≠ [] then randomChoice budget_plans (pick 1) else fallback
    else if profile_type = "Feature Deficiency" then
      if is_churned then
        let candidate_plans := all_plans.filter (fun p =>
          decide (p.streamingQuality ≠ "4K UHD") && decide (p.international_data = "0"))
        if candidate_plans ≠ [] then randomChoice candidate_plans (pick 2) else fallback
      else
        let candidate_plans := all_plans.filter (fun p =>
          decide (p.streamingQuality = "4K UHD") ||
          (decide (p.international_data ≠ "0") && decide (p.international_data ≠ "")))
        if candidate_plans ≠ [] then randomChoice candidate_plans (pick 3) else fallback
    else if profile_type = "Customer Service" then
      if is_churned then
        if premium_plans ≠ [] ∨ mid_range_plans ≠ [] then
          randomChoice (premium_plans ++ mid_range_plans) (pick 4)
        else fallback
      else fallback
    else if profile_type = "Network Quality" then
      if is_churned then
        let unlimited_plans := all_plans.filter (fun p => decide (p.dataAllowance = "Unlimited"))
        if unlimited_plans ≠ [] then randomChoice unlimited_plans (pick 5) else fallback
      else
        if premium_plans ≠ [] then randomChoice premium_plans (pick 6) else fallback
    else if profile_type = "Loyal Customer" then
      let best_value_plans := all_plans.filter (fun p => decide (p.popularity = "Best Value"))
      if best_value_plans ≠ [] then randomChoice best_value_plans (pick 7)
      else if premium_plans ≠ [] then randomChoice premium_plans (pick 8)
      else fallback
    else if profile_type = "At Risk" then
      if mid_range_plans ≠ [] then randomChoice mid_range_plans (pick 10) else fallback
    else fallback

/-! ## Specification-side view of the Price Sensitive search

These definitions transcribe the specification's wording for the
Price Sensitive branch ("cheapest plan strictly below current price
whose data allowance still covers the customer's observed download
usage; tie-break is first plan found with a new lowest price"), to be
compared against the implementation `psLoop`. -/

/-- The non-champion plans in scan order: operators in dictionary
order, skipping the champion, each operator's plans in list order. -/
def nonChampionEntries (operators : Operators) : List (String × Plan) :=
  (operators.filter (fun x => !(x.1 = "Operator B (champion)"))).flatMap
    (fun x => x.2.map (fun p => (x.1, p)))

/-- A plan qualifies when its price is strictly below the champion
price and its data allowance covers the observed download usage. -/
def psQualifies (cp dd : ℚ) (e : String × Plan) : Bool :=
  decide (extractPriceNumeric e.2.price < cp) && dataSufficient e.2 dd

/-- The first (scan-order) qualifying plan attaining the minimum
price: a later plan replaces the current find only when its price is
strictly lower, so equal-price ties keep the earlier plan. -/
def psSpecFind (cp dd : ℚ) : List (String × Plan) → Option (String × Plan)
  | [] => none
  | e :: rest =>
    match psSpecFind cp dd rest with
    | none => if psQualifies cp dd e then some e else none
    | some b =>
      if psQualifies cp dd e ∧
          extractPriceNumeric e.2.price ≤ extractPriceNumeric b.2.price then some e
      else some b

/-- The scan state after an update on entry `e` (the assignment block
of lines 586–589). -/
def psUpdated (cp : ℚ) (e : String × Plan) : PSState :=
  { cheapest := some e, cheapestPrice := some (extractPriceNumeric e.2.price),
    reason := "$" ++ fmt2 (cp - extractPriceNumeric e.2.price) ++ " monthly savings" }

/-- Merging an accumulated scan state with the best find of a suffix:
the suffix's find wins only when strictly cheaper than the
accumulated price (proof device for relating `psLoop` to
`psSpecFind`). -/
def psMergeB (cp : ℚ) (st : PSState) : Option (String × Plan) → PSState
  | none => st
  | some e =>
    if psLtB (extractPriceNumeric e.2.price) st.cheapestPrice then psUpdated cp e
    else st

/-! ## Concrete fixtures used by the closed theorems below -/

/-- The champion's `"Infinite Ultimate"` $90 plan (with a short country
list, so the Feature Deficiency country bonus stays inert). -/
def fixChampionPlan : Plan :=
  { planID := "POCH023", name := "Infinite Ultimate", price := "90",
    customerType := "Individual", dataAllowance := "Unlimited",
    marketSegment := "General", streamingQuality := "4K UHD",
    businessType := "prepaid", activationFee := "35", popularity := "Best Value",
    international_data := "10", international_voice := "Unlimited",
    international_sms := "Unlimited", international_countries := "US",
    hotspot_data := "30" }

/-- A $15 competitor plan with unlimited data. -/
def fixPlan15 : Plan :=
  { planID := "POC001", name := "$15 Smartphone Plan", price := "15",
    customerType := "Individual", dataAllowance := "Unlimited",
    marketSegment := "General", streamingQuality := "SD",
    businessType := "prepaid", activationFee := "0", popularity := "",
    international_data := "0", international_voice := "0",
    international_sms := "0", international_countries := "", hotspot_data := "1" }

/-- Catalog for the C9 scenario: the champion's $90 plan and a single
non-champion $15 alternative with sufficient data. -/
def c9catalog : Operators :=
  [("Operator B (champion)", [fixChampionPlan]), ("Operator C", [fixPlan15])]

/-- The C9 record: Price-Sensitive churned customer on the champion's
$90 plan. -/
def c9record : Record :=
  { planName := "Infinite Ultimate", price := "90", customerType := "Individual",
    marketSegment := "General", satisfaction := 2, complaints := 3, cltv := 2500,
    churnStatus := "Churned", churnScore := 85, location := "Dallas",
    relationshipMonths := 20, data_download := "30.00", data_upload := "5.00",
    voice_minutes := 100, sms_count := 20, intl_voice := 0,
    intl_data_upload := "0.00", intl_data_download := "0.00", intl_sms := 0,
    ott_usage := "2.00", productOffering_data := "Unlimited" }

/-- The usage metrics of `c9record`. -/
def c9metrics : UsageMetrics := usageMetricsOf c9record

/-- A competitor plan whose international data allowance is the literal
`"Unlimited"` and which is not a 4K upgrade over the champion: reaching
the Feature Deficiency reason chain with it runs
`float("Unlimited".replace("unlimited", "1000"))`, which raises. -/
def fixUnlimitedIntlPlan : Plan :=
  { planID := "PX1", name := "X Plan", price := "50",
    customerType := "Individual", dataAllowance := "Unlimited",
    marketSegment := "General", streamingQuality := "HD",
    businessType := "prepaid", activationFee := "0", popularity := "",
    international_data := "Unlimited", international_voice := "0",
    international_sms := "0", international_countries := "", hotspot_data := "0" }

/-- Catalog for the C4 failing input. -/
def c4catalog : Operators :=
  [("Operator B (champion)", [fixChampionPlan]), ("Operator X", [fixUnlimitedIntlPlan])]

/-- The C4 record: a Feature-Deficiency churned customer on the
champion's $90 plan (all numeric record fields well-formed). -/
def c4record : Record :=
  { planName := "Infinite Ultimate", price := "90", customerType := "Individual",
    marketSegment := "General", satisfaction := 3, complaints := 2, cltv := 5000,
    churnStatus := "Churned", churnScore := 80, location := "Dallas",
    relationshipMonths := 18, data_download := "60.00", data_upload := "12.00",
    voice_minutes := 300, sms_count := 50, intl_voice := 40,
    intl_data_upload := "0.50", intl_data_download := "3.00", intl_sms := 20,
    ott_usage := "15.00", productOffering_data := "Unlimited" }

/-- Header block: the five rows `load_plans_from_csv` always skips. -/
def c6headerRows : List (List String) :=
  [["h"], ["h"], ["h"], ["h"], ["h"]]

/-- A well-formed 11-column Individual data row. -/
def c6goodRow : List String :=
  ["OpGood", "P1", "General", "prepaid", "Dallas", "", "", "", "Individual",
   "Good Plan", "25"]

/-- A 10-column Individual data row: it passes the `len(row) < 10`
guard but `row[10]` raises `IndexError`. -/
def c6shortPricedRow : List String :=
  ["OpBad", "P2", "General", "prepaid", "Dallas", "", "", "", "Individual",
   "Bad Plan"]

/-- The plan parsed from `c6goodRow`. -/
def c6goodPlan : Plan :=
  { planID := "P1", name := "Good Plan", price := "25",
    customerType := "Individual", dataAllowance := "", marketSegment := "General",
    streamingQuality := "", businessType := "prepaid", activationFee := "0",
    popularity := "", international_data := "", international_voice := "",
    international_sms := "", international_countries := "", hotspot_data := "" }

/-! ## Helper lemmas -/

theorem randomInt_bounds (lo hi d : ℤ) (h : lo ≤ hi) :
    lo ≤ randomInt lo hi d ∧ randomInt lo hi d ≤ hi := by
  unfold randomInt
  have h1 : 0 ≤ d.emod (hi - lo + 1) := Int.emod_nonneg d (by omega)
  have h2 : d.emod (hi - lo + 1) < hi - lo + 1 := Int.emod_lt_of_pos d (by omega)
  omega

theorem psStep_high (cp dd : ℚ) (st : PSState) (e : String × Plan)
    (h : cp ≤ extractPriceNumeric e.2.price) : psStep cp dd st e = st := by
  simp only [psStep]
  rw [if_pos h]

theorem psStep_insuff (cp dd : ℚ) (st : PSState) (e : String × Plan)
    (h : ¬ cp ≤ extractPriceNumeric e.2.price)
    (h2 : dataSufficient e.2 dd = false) : psStep cp dd st e = st := by
  simp only [psStep]
  rw [if_neg h, h2]
  simp

theorem psStep_update (cp dd : ℚ) (st : PSState) (e : String × Plan)
    (h : ¬ cp ≤ extractPriceNumeric e.2.price)
    (h2 : dataSufficient e.2 dd = true)
    (h3 : psLtB (extractPriceNumeric e.2.price) st.cheapestPrice = true) :
    psStep cp dd st e = psUpdated cp e := by
  simp only [psStep]
  rw [if_neg h, h2, h3]
  simp [psUpdated]

theorem psStep_noupd (cp dd : ℚ) (st : PSState) (e : String × Plan)
    (h3 : psLtB (extractPriceNumeric e.2.price) st.cheapestPrice = false) :
    psStep cp dd st e = st := by
  simp only [psStep]
  rw [h3]
  simp

/-- The Price Sensitive scan, processed left to right from any starting
state, equals the merge of that state with the first-minimum find of
the remaining entries. -/
theorem psFoldl_eq (cp dd : ℚ) (l : List (String × Plan)) :
    ∀ st : PSState, List.foldl (psStep cp dd) st l = psMergeB cp st (psSpecFind cp dd l) := by
  induction l with
  | nil => intro st; rfl
  | cons e rest ih =>
    intro st
    rw [List.foldl_cons, ih]
    by_cases hcp : cp ≤ extractPriceNumeric e.2.price
    · have hq : psQualifies cp dd e = false := by
        simp [psQualifies, not_lt.mpr hcp]
      rw [psStep_high cp dd st e hcp]
      cases hfind : psSpecFind cp dd rest <;> simp [psSpecFind, hfind, hq]
    · by_cases hsuff : dataSufficient e.2 dd = true
      case neg =>
        have hsf : dataSufficient e.2 dd = false := by
          cases hx : dataSufficient e.2 dd
          · rfl
          · exact absurd hx hsuff
        have hq : psQualifies cp dd e = false := by
          simp [psQualifies, hsf]
        rw [psStep_insuff cp dd st e hcp hsf]
        cases hfind : psSpecFind cp dd rest <;> simp [psSpecFind, hfind, hq]
      case pos =>
        have hlt : extractPriceNumeric e.2.price < cp := lt_of_not_ge hcp
        have hq : psQualifies cp dd e = true := by
          simp [psQualifies, hlt, hsuff]
        cases hfind : psSpecFind cp dd rest with
        | none =>
          have hspec : psSpecFind cp dd (e :: rest) = some e := by
            simp [psSpecFind, hfind, hq]
          rw [hspec]
          cases hltb : psLtB (extractPriceNumeric e.2.price) st.cheapestPrice with
          | true =>
            rw [psStep_update cp dd st e hcp hsuff hltb]
            show psMergeB cp (psUpdated cp e) none = psMergeB cp st (some e)
            simp [psMergeB, hltb]
          | false =>
            rw [psStep_noupd cp dd st e hltb]
            show psMergeB cp st none = psMergeB cp st (some e)
            simp [psMergeB, hltb]
        | some b =>
          by_cases hple : extractPriceNumeric e.2.price ≤ extractPriceNumeric b.2.price
          · have hspec : psSpecFind cp dd (e :: rest) = some e := by
              simp [psSpecFind, hfind, hq, hple]
            rw [hspec]
            cases hltb : psLtB (extractPriceNumeric e.2.price) st.cheapestPrice with
            | true =>
              rw [psStep_update cp dd st e hcp hsuff hltb]
              show psMergeB cp (psUpdated cp e) (some b) = psMergeB cp st (some e)
              have hnb : psLtB (extractPriceNumeric b.2.price)
                  (psUpdated cp e).cheapestPrice = false := by
                simp [psUpdated, psLtB, not_lt.mpr hple]
              simp [psMergeB, hnb, hltb]
            | false =>
              rw [psStep_noupd cp dd st e hltb]
              show psMergeB cp st (some b) = psMergeB cp st (some e)
              cases hcpo : st.cheapestPrice with
              | none =>
                rw [hcpo] at hltb
                simp [psLtB] at hltb
              | some c =>
                rw [hcpo] at hltb
                have hce : ¬ extractPriceNumeric e.2.price < c := by
                  simpa [psLtB] using hltb
                have hcb : ¬ extractPriceNumeric b.2.price < c := by
                  intro hx
                  exact hce (lt_of_le_of_lt hple hx)
                simp [psMergeB, hcpo, psLtB, hce, hcb]
          · have hspec : psSpecFind cp dd (e :: rest) = some b := by
              simp [psSpecFind, hfind, hq, hple]
            rw [hspec]
            have hbe : extractPriceNumeric b.2.price < extractPriceNumeric e.2.price :=
              lt_of_not_ge hple
            cases hltb : psLtB (extractPriceNumeric e.2.price) st.cheapestPrice with
            | true =>
              rw [psStep_update cp dd st e hcp hsuff hltb]
              show psMergeB cp (psUpdated cp e) (some b) = psMergeB cp st (some b)
              have hyb : psLtB (extractPriceNumeric b.2.price)
                  (psUpdated cp e).cheapestPrice = true := by
                simp [psUpdated, psLtB, hbe]
              have hsb : psLtB (extractPriceNumeric b.2.price) st.cheapestPrice = true := by
                cases hcpo : st.cheapestPrice with
                | none => rfl
                | some c =>
                  rw [hcpo] at hltb
                  have hec : extractPriceNumeric e.2.price < c := by
                    simpa [psLtB] using hltb
                  simp [psLtB, lt_trans hbe hec]
              simp [psMergeB, hyb, hsb]
            | false =>
              rw [psStep_noupd cp dd st e hltb]

/-- The nested operator/plan loops of the Price Sensitive branch equal
a single scan over the flattened non-champion entry list. -/
theorem psLoop_eq (cp dd : ℚ) :
    ∀ (operators : Operators) (st : PSState),
      List.foldl
        (fun st x =>
          if x.1 = "Operator B (champion)" then st
          else List.foldl (fun st2 p => psStep cp dd st2 (x.1, p)) st x.2) st operators =
      List.foldl (psStep cp dd) st (nonChampionEntries operators) := by
  intro ops
  induction ops with
  | nil => intro st; rfl
  | cons x rest ih =>
    intro st
    rw [List.foldl_cons]
    by_cases hx : x.1 = "Operator B (champion)"
    · rw [if_pos hx, ih]
      congr 1
      simp [nonChampionEntries, List.filter_cons, hx]
    · rw [if_neg hx, ih]
      have hnc : nonChampionEntries (x :: rest) =
          x.2.map (fun p => (x.1, p)) ++ nonChampionEntries rest := by
        simp [nonChampionEntries, List.filter_cons, hx]
      rw [hnc, List.foldl_append, List.foldl_map]

theorem bumpCount_le (c : CatCounts) (x : Category) :
    c.churned ≤ (bumpCount c x).churned ∧ c.at_risk ≤ (bumpCount c x).at_risk ∧
    c.loyal ≤ (bumpCount c x).loyal := by
  cases x <;> simp [bumpCount]

theorem runCategoriesFrom_le (minc : CatCounts) (draws : ℕ → Category) :
    ∀ (n i : ℕ) (c : CatCounts),
      c.churned ≤ (runCategoriesFrom minc draws i c n).churned ∧
      c.at_risk ≤ (runCategoriesFrom minc draws i c n).at_risk ∧
      c.loyal ≤ (runCategoriesFrom minc draws i c n).loyal := by
  intro n
  induction n with
  | zero => intro i c; exact ⟨le_refl _, le_refl _, le_refl _⟩
  | succ n ih =>
    intro i c
    have h1 := bumpCount_le c (pickCategory minc c (draws i))
    have h2 := ih (i + 1) (bumpCount c (pickCategory minc c (draws i)))
    exact ⟨le_trans h1.1 h2.1, le_trans h1.2.1 h2.2.1, le_trans h1.2.2 h2.2.2⟩

theorem runCategoriesFrom_add (minc : CatCounts) (draws : ℕ → Category) :
    ∀ (m n i : ℕ) (c : CatCounts),
      runCategoriesFrom minc draws i c (m + n) =
        runCategoriesFrom minc draws (i + m) (runCategoriesFrom minc draws i c m) n := by
  intro m
  induction m with
  | zero => intro n i c; simp [runCategoriesFrom]
  | succ m ih =>
    intro n i c
    have he : m + 1 + n = (m + n) + 1 := by omega
    rw [he]
    show runCategoriesFrom minc draws (i + 1) _ (m + n) = _
    rw [ih]
    have he2 : i + 1 + m = i + (m + 1) := by omega
    rw [he2]
    rfl

theorem processRow_short (ops : Operators) (row : List String)
    (h : row = [] ∨ row.length < 10) : processRow ops row = Except.ok ops := by
  have hc : (decide (row = []) || decide (row.length < 10)) = true := by
    rcases h with h | h
    · simp [h]
    · simp [h]
  unfold processRow
  rw [if_pos hc]
  rfl

theorem randomChoice_mem (l : List Plan) (d : ℕ) (h : l ≠ []) :
    ∃ p, randomChoice l d = some p ∧ p ∈ l := by
  have hlen : 0 < l.length := List.length_pos.mpr h
  have hlt : d % l.length < l.length := Nat.mod_lt _ hlen
  refine ⟨l.get ⟨d % l.length, hlt⟩, ?_, List.get_mem l _ _⟩
  simp [randomChoice, List.get?_eq_get hlt]

theorem choiceSub (sub all : List Plan) (d : ℕ) (hsub : ∀ p ∈ sub, p ∈ all)
    (h : sub ≠ []) : ∃ p, randomChoice sub d = some p ∧ p ∈ all := by
  obtain ⟨p, hp1, hp2⟩ := randomChoice_mem sub d h
  exact ⟨p, hp1, hsub p hp2⟩

/-! ## Claim theorems -/

set_option maxRecDepth 100000
set_option maxHeartbeats 2000000

/-- C1: for every record the generation pipeline can produce (any
category assignment, any profile draw, any score and probability
draws), the churn fields satisfy: `churn_status = "Churned"` holds iff
`churn_category` and `churn_reason` are both non-empty and the churn
score lies in `[70, 100]`. -/
theorem claim_C1_churned_iff_category_reason_score (cat : Category) (d : ℕ)
    (sd : ℤ) (pd : ℚ) :
    ∃ ci : ChurnInfo,
      generateChurnInfo (pickProfileType cat d) (decide (cat = Category.churned)) sd pd =
        Except.ok ci ∧
      (ci.status = "Churned" ↔
        ci.category ≠ "" ∧ ci.reason ≠ "" ∧ 70 ≤ ci.score ∧ ci.score ≤ 100) := by
  cases cat with
  | churned =>
    have h4 : d % 4 = 0 ∨ d % 4 = 1 ∨ d % 4 = 2 ∨ d % 4 = 3 := by omega
    have hb := randomInt_bounds 70 100 sd (by norm_num)
    rcases h4 with h | h | h | h
    · simp only [pickProfileType, listChoice, customerDistribution, List.length_cons,
        List.length_nil, h]
      exact ⟨⟨"Churned", randomInt 70 100 sd, "Price Sensitive", "Price sensitivity"⟩, rfl,
        ⟨fun _ => ⟨by show ("Price Sensitive" : String) ≠ ""; decide,
          by show ("Price sensitivity" : String) ≠ ""; decide, hb.1, hb.2⟩, fun _ => rfl⟩⟩
    · simp only [pickProfileType, listChoice, customerDistribution, List.length_cons,
        List.length_nil, h]
      exact ⟨⟨"Churned", randomInt 70 100 sd, "Feature Deficiency",
        "Competitor offered better streaming quality and international options"⟩, rfl,
        ⟨fun _ => ⟨by show ("Feature Deficiency" : String) ≠ ""; decide,
          by show ("Competitor offered better streaming quality and international options" : String) ≠ ""
             decide, hb.1, hb.2⟩, fun _ => rfl⟩⟩
    · simp only [pickProfileType, listChoice, customerDistribution, List.length_cons,
        List.length_nil, h]
      exact ⟨⟨"Churned", randomInt 70 100 sd, "Customer Service",
        "Multiple unresolved complaints and poor customer service"⟩, rfl,
        ⟨fun _ => ⟨by show ("Customer Service" : String) ≠ ""; decide,
          by show ("Multiple unresolved complaints and poor customer service" : String) ≠ ""
             decide, hb.1, hb.2⟩, fun _ => rfl⟩⟩
    · simp only [pickProfileType, listChoice, customerDistribution, List.length_cons,
        List.length_nil, h]
      exact ⟨⟨"Churned", randomInt 70 100 sd, "Network Quality",
        "Network coverage and speed issues in their location"⟩, rfl,
        ⟨fun _ => ⟨by show ("Network Quality" : String) ≠ ""; decide,
          by show ("Network coverage and speed issues in their location" : String) ≠ ""
             decide, hb.1, hb.2⟩, fun _ => rfl⟩⟩
  | at_risk =>
    have h1 : d % 1 = 0 := Nat.mod_one d
    simp only [pickProfileType, listChoice, customerDistribution, List.length_cons,
      List.length_nil, h1]
    refine ⟨⟨"At Risk", randomInt 60 85 sd, "", ""⟩, rfl, ?_⟩
    constructor
    · intro hx
      exact absurd hx (by show ¬("At Risk" : String) = "Churned"; decide)
    · rintro ⟨hc, -⟩
      exact absurd rfl hc
  | loyal =>
    have h1 : d % 1 = 0 := Nat.mod_one d
    simp only [pickProfileType, listChoice, customerDistribution, List.length_cons,
      List.length_nil, h1]
    refine ⟨⟨"Not Churned", randomInt 5 30 sd, "", ""⟩, rfl, ?_⟩
    constructor
    · intro hx
      exact absurd hx (by show ¬("Not Churned" : String) = "Churned"; decide)
    · rintro ⟨hc, -⟩
      exact absurd rfl hc

/-- C2 counterexample: the CLTV bands are NOT half-open — the income
`"Low"` draw `2000` yields exactly 3000 (`random.randint` is inclusive
at both ends), which lies outside the claimed `[1000, 3000)`. -/
theorem claim_C2_counterexample :
    deriveCltv "Low" 2000 = 3000 ∧ ¬(deriveCltv "Low" 2000 < 3000) :=
  ⟨by decide, by decide⟩

/-- C2 amended: the CLTV bands are the inclusive integer ranges
Low → [1000, 3000], Medium → [3000, 6000], High → [6000, 12000]
(adjacent bands share their endpoints). -/
theorem claim_C2_amended_cltv_bands_inclusive (income : String) (d : ℤ) :
    (income = "Low" → 1000 ≤ deriveCltv income d ∧ deriveCltv income d ≤ 3000) ∧
    (income = "Medium" → 3000 ≤ deriveCltv income d ∧ deriveCltv income d ≤ 6000) ∧
    (income = "High" → 6000 ≤ deriveCltv income d ∧ deriveCltv income d ≤ 12000) := by
  refine ⟨?_, ?_, ?_⟩ <;> intro h <;> subst h <;> unfold deriveCltv
  · rw [if_pos rfl]
    exact randomInt_bounds 1000 3000 d (by norm_num)
  · rw [if_neg (by decide), if_pos rfl]
    exact randomInt_bounds 3000 6000 d (by norm_num)
  · rw [if_neg (by decide), if_neg (by decide)]
    exact randomInt_bounds 6000 12000 d (by norm_num)

/-- C2 witness: the Low band at a concrete draw. -/
theorem claim_C2_witness : 1000 ≤ deriveCltv "Low" 0 ∧ deriveCltv "Low" 0 ≤ 3000 :=
  (claim_C2_amended_cltv_bands_inclusive "Low" 0).1 rfl

/-- C3 counterexample: `extract_price_numeric("Unlimited")` is 0, not a
large sentinel — it is even smaller than the parsed `"$15"`. -/
theorem claim_C3_counterexample :
    extractPriceNumeric "Unlimited" = 0 ∧
    extractPriceNumeric "Unlimited" < extractPriceNumeric "$15" :=
  ⟨by with_unfolding_all decide, by with_unfolding_all decide⟩

/-- C3 amended: the extraction maps `"40/line"` to 40.0 and `"$15"` to
15.0, and maps `"Unlimited"` to 0 (a failed parse degrades to 0, not to
a large sentinel). -/
theorem claim_C3_amended_extract_price :
    extractPriceNumeric "40/line" = 40 ∧ extractPriceNumeric "$15" = 15 ∧
    extractPriceNumeric "Unlimited" = 0 :=
  ⟨by with_unfolding_all decide, by with_unfolding_all decide,
    by with_unfolding_all decide⟩

/-- C4: the insight composer is NOT exception-free on catalogs whose
competitor plans carry `"Unlimited"` international data: on this
Feature-Deficiency churned record the reason chain evaluates
`float("Unlimited".replace("unlimited", "1000"))` (lower-case pattern,
source line 690) and raises `ValueError`. -/
theorem claim_C4_composer_raises_on_unlimited_intl :
    generateDynamicInsight c4record c4catalog "Feature Deficiency" =
      Except.error "ValueError" := by
  with_unfolding_all decide

/-- C5: whenever the body of `load_plans_from_csv` fails with any
exception (missing file, malformed content, short rows, unresolvable
prices), the loader returns the hard-coded default catalog instead of
propagating. -/
theorem claim_C5_loader_defaults_on_failure (src : Option (List (List String)))
    (e : String) (h : loadPlansAux src = Except.error e) :
    loadPlansFromCsv src = getDefaultOperators := by
  unfold loadPlansFromCsv
  rw [h]

/-- C5 witness: a missing file degrades to the default catalog. -/
theorem claim_C5_witness : loadPlansFromCsv none = getDefaultOperators :=
  claim_C5_loader_defaults_on_failure none "FileNotFoundError" rfl

/-- C6 counterexample: a 10-column Individual data row is NOT merely
skipped — reading its missing price column aborts the whole parse, so
the loader returns the default catalog and a well-formed row of the
same file (which parses fine on its own) is lost. -/
theorem claim_C6_counterexample :
    loadPlansFromCsv (some (c6headerRows ++ [c6goodRow, c6shortPricedRow])) =
      getDefaultOperators ∧
    lookupOp (loadPlansFromCsv (some (c6headerRows ++ [c6goodRow, c6shortPricedRow])))
      "OpGood" = none ∧
    loadPlansFromCsv (some (c6headerRows ++ [c6goodRow])) = [("OpGood", [c6goodPlan])] :=
  ⟨by decide, by decide, by decide⟩

/-- C6 amended: a data row that is empty or has fewer than 10 columns
is skipped silently — removing it anywhere in the row list leaves the
parse of every other row unchanged.  (Rows with 10–13 columns whose
customer type reads a missing price column instead abort the parse;
see the counterexample.) -/
theorem claim_C6_amended_short_rows_skipped (short : List String)
    (h : short = [] ∨ short.length < 10) (pre post : List (List String)) :
    ∀ ops : Operators, loadRows ops (pre ++ short :: post) = loadRows ops (pre ++ post) := by
  induction pre with
  | nil =>
    intro ops
    simp only [List.nil_append, loadRows, List.foldlM_cons, processRow_short ops short h]
    rfl
  | cons r pre ih =>
    intro ops
    simp only [List.cons_append, loadRows, List.foldlM_cons]
    cases hr : processRow ops r with
    | error e => rfl
    | ok v => exact ih v

/-- C6 witness: a 1-column row in front of a well-formed row is
skipped. -/
theorem claim_C6_witness : loadRows [] [["x"], c6goodRow] = loadRows [] [c6goodRow] :=
  claim_C6_amended_short_rows_skipped ["x"] (Or.inr (by decide)) [] [c6goodRow] []

/-- C7: generating 20 records yields at least 8 churned, 2 at-risk and
2 loyal category assignments, whatever the random category draws. -/
theorem claim_C7_min_category_distribution (draws : ℕ → Category) :
    8 ≤ (runCategories minCounts20 draws 20).churned ∧
    2 ≤ (runCategories minCounts20 draws 20).at_risk ∧
    2 ≤ (runCategories minCounts20 draws 20).loyal := by
  have h12 : runCategoriesFrom minCounts20 draws 0
      { churned := 0, at_risk := 0, loyal := 0 } 12 =
      { churned := 8, at_risk := 2, loyal := 2 } := by
    simp [runCategoriesFrom, bumpCount, pickCategory, minCounts20]
  have hsplit := runCategoriesFrom_add minCounts20 draws 12 8 0
    { churned := 0, at_risk := 0, loyal := 0 }
  rw [h12] at hsplit
  norm_num at hsplit
  unfold runCategories
  rw [show (20 : ℕ) = 12 + 8 from rfl, hsplit]
  exact runCategoriesFrom_le minCounts20 draws 8 12 { churned := 8, at_risk := 2, loyal := 2 }

/-- C8: for a Price-Sensitive customer (with parseable usage metrics),
the competitor search returns exactly the specification's first-minimum
scan: the first-found cheapest non-champion plan strictly below the
champion price whose data allowance covers the download usage — a
later-scanned equal-price plan never replaces an earlier find. -/
theorem claim_C8_price_sensitive_first_min (champ : Plan) (operators : Operators)
    (um : UsageMetrics) (dd iu idn ot : ℚ)
    (h1 : parseFloat um.data_download = some dd)
    (h2 : parseFloat um.intl_data_upload = some iu)
    (h3 : parseFloat um.intl_data_download = some idn)
    (h4 : parseFloat um.ott_usage = some ot) :
    findBetterCompetitorPlan "Price Sensitive" champ operators um =
      Except.ok ((psSpecFind (extractPriceNumeric champ.price) dd
          (nonChampionEntries operators)).map
        (fun e => (e.1, e.2,
          "$" ++ fmt2 (extractPriceNumeric champ.price - extractPriceNumeric e.2.price) ++
            " monthly savings"))) := by
  simp only [findBetterCompetitorPlan, pyFloat, h1, h2, h3, h4]
  simp only [Bind.bind, Except.bind, if_true]
  simp only [psLoop]
  rw [psLoop_eq, psFoldl_eq]
  cases hfind : psSpecFind (extractPriceNumeric champ.price) dd
      (nonChampionEntries operators) with
  | none => rfl
  | some e =>
    simp only [psMergeB, psLtB, psUpdated, Option.map_some]
    rfl

/-- C8 witness: the search at the C9 fixture. -/
theorem claim_C8_witness :
    findBetterCompetitorPlan "Price Sensitive" fixChampionPlan c9catalog c9metrics =
      Except.ok ((psSpecFind (extractPriceNumeric fixChampionPlan.price) 30
          (nonChampionEntries c9catalog)).map
        (fun e => (e.1, e.2,
          "$" ++ fmt2 (extractPriceNumeric fixChampionPlan.price -
            extractPriceNumeric e.2.price) ++ " monthly savings"))) :=
  claim_C8_price_sensitive_first_min fixChampionPlan c9catalog c9metrics 30 0 0 2
    (by with_unfolding_all decide) (by with_unfolding_all decide)
    (by with_unfolding_all decide) (by with_unfolding_all decide)

/-- C9: on the scenario record (Price-Sensitive churned, champion plan
at $90) with a catalog holding a single $15 non-champion alternative
with sufficient data, the search selects that plan with reason
`"$75.00 monthly savings"`, and the composed insight text contains
that savings figure. -/
theorem claim_C9_savings_insight :
    findBetterCompetitorPlan "Price Sensitive" fixChampionPlan c9catalog c9metrics =
      Except.ok (some ("Operator C", fixPlan15, "$75.00 monthly savings")) ∧
    (match generateDynamicInsight c9record c9catalog "Price Sensitive" with
     | Except.ok (some t) => strContains t "$75.00 monthly savings"
     | _ => false) = true :=
  ⟨by with_unfolding_all decide, by with_unfolding_all decide⟩

/-- C10: for every non-empty plan list, every profile-type string
(known archetype or not) and either churn flag, the plan selection
returns some plan belonging to the given list — never `None`, never an
error. -/
theorem claim_C10_select_plan_total (profile_type : String) (all_plans : List Plan)
    (is_churned : Bool) (pick : ℕ → ℕ) (h : all_plans ≠ []) :
    ∃ p : Plan, selectAppropriatePlan profile_type all_plans is_churned pick = some p ∧
      p ∈ all_plans := by
  have happ : ∀ (f g : Plan → Bool) p,
      p ∈ all_plans.filter f ++ all_plans.filter g → p ∈ all_plans := by
    intro f g p hp
    rcases List.mem_append.mp hp with hp | hp
    · exact List.mem_of_mem_filter hp
    · exact List.mem_of_mem_filter hp
  simp only [selectAppropriatePlan, if_neg h]
  split_ifs <;>
    first
      | exact choiceSub _ _ _ (happ _ _) (by assumption)
      | exact choiceSub _ _ _ (fun p hp => List.mem_of_mem_filter hp) (by assumption)
      | exact choiceSub _ _ _ (fun p hp => hp) h
      | (rename_i hor
         exact choiceSub _ _ _ (happ _ _) (by
          rcases hor with hne | hne <;>
            · intro hc
              rw [List.append_eq_nil] at hc
              first | exact hne hc.1 | exact hne hc.2))

/-- C10 witness: a concrete selection from the default champion plans. -/
theorem claim_C10_witness :
    ∃ p : Plan, selectAppropriatePlan "Loyal Customer" [fixChampionPlan, fixPlan15] false
      (fun _ => 0) = some p ∧ p ∈ [fixChampionPlan, fixPlan15] :=
  claim_C10_select_plan_total "Loyal Customer" [fixChampionPlan, fixPlan15] false
    (fun _ => 0) (by decide)

end TelecomGen
